import Mathlib

/-!
# Verification of the AIFoundry multi-agent A2A routing layer

Shallow embedding of the task-routing and remote-delegation logic of the
repository, together with theorems settling the frozen claims C1..C10.

The embedding covers:
* `RoutingAgent` context/session state and `initialize_session`,
  `send_message` from `src/routing_agent/routing_agent.py`;
* the registry initialization `_async_init_components`;
* the run-polling loop of `process_user_message`;
* `RemoteAgentConnections.send_message` and `_direct_http_fallback` from
  `src/routing_agent/remote_agent_connection.py`;
* `OpenAIWebSearchAgent.stream` and `_parse_rate_limit_error` from
  `src/remote_agents/sports_results_agent/agent.py`;
* `OpenAIWebSearchAgentExecutor.execute` from
  `src/remote_agents/sports_results_agent/agent_executor.py`.

External collaborators (the Azure agent runtime, the network, the OpenAI
model stream) are modelled as explicit parameters: a resolution oracle for
card discovery, a status oracle for run polling, per-endpoint outcomes for
transport, and the list of already-classified model-stream events for the
downstream agent. Python `str.lower`/`in` are modelled on character lists;
Python dicts whose keys matter are modelled as `Option`-valued fields or
association lists with overwrite-on-insert semantics.
-/

/-- Whether `n` is a leading segment of `h`. -/
def leadsB : List Char → List Char → Bool
  | [], _ => true
  | _ :: _, [] => false
  | a :: as, b :: bs => a == b && leadsB as bs

/-- Whether `n` occurs contiguously inside `h`. -/
def occursB (n : List Char) : List Char → Bool
  | [] => n.isEmpty
  | b :: bs => leadsB n (b :: bs) || occursB n bs

/-- Python `needle in haystack` on strings. -/
def pyIn (needle haystack : String) : Bool :=
  occursB needle.data haystack.data

/-- Python `str.lower()` (ASCII, which is all the source compares). -/
def pyLower (s : String) : String :=
  ⟨s.data.map Char.toLower⟩

/-- ASCII whitespace, which is all the streamed content can carry at
the edges. -/
def isSpaceB (c : Char) : Bool :=
  c == ' ' || c == '\t' || c == '\n' || c == '\r'

/-- Python `str.strip()`. -/
def pyStrip (s : String) : String :=
  ⟨((s.data.dropWhile isSpaceB).reverse.dropWhile isSpaceB).reverse⟩

/-!
## Routing agent context state

`AzureAgentContext.state` is a Python dict.  The keys the code reads or
writes are `session_id`, `session_active`, `active_agent`, `task_id`,
`context_id` and `input_message_metadata` (of which only the `message_id`
entry is consulted).  Absence of a key is modelled as `none`.
-/

structure CtxState where
  session_id : Option String
  session_active : Option Bool
  active_agent : Option String
  task_id : Option String
  context_id : Option String
  /-- `state["input_message_metadata"]["message_id"]` when both the dict and
  the key are present, else `none`. -/
  metadata_message_id : Option String
deriving DecidableEq, Repr

/-- The empty context dict (`AzureAgentContext.__init__`). -/
def CtxState.empty : CtxState :=
  ⟨none, none, none, none, none, none⟩

/-- `RoutingAgent.initialize_session` (routing_agent.py lines 382-388).
`uuidFresh` stands for the `str(uuid.uuid4())` drawn when a new session id
is minted. -/
def initialize_session (uuidFresh : String) (s : CtxState) : CtxState :=
  if s.session_active ≠ some true then
    let s1 := if s.session_id = none then { s with session_id := some uuidFresh } else s
    { s1 with session_active := some true }
  else s

/-- `RoutingAgent.check_active_agent` (routing_agent.py lines 370-380). -/
def check_active_agent (s : CtxState) : String :=
  match s.session_id, s.session_active, s.active_agent with
  | some _, some true, some a => a
  | _, _, _ => "None"

/-!
## `RoutingAgent.send_message` (routing_agent.py lines 404-567)

The method returns before any network activity in two cases: empty
registry and unknown agent name, each producing a structured error dict.
Otherwise it mutates `state["active_agent"]`, chooses `task_id` /
`context_id` / `message_id`, and builds the outgoing payload.  The part
after the network call never writes `task_id`/`context_id` back into the
context dict (the local variable `state` is even rebound to the response
status string), so the context mutation of one call is exactly
`active_agent := agent_name`.  `Dispatch` records the cut point at which
the request goes on the wire: the guards return strictly before it, hence
without network traffic and without raising.
-/

/-- Python `repr` of a list of strings, as produced by
`f"... {available_agents}"` on a `list[str]`. -/
def pyListRepr (names : List String) : String :=
  "[" ++ String.intercalate ", " (names.map (fun n => "\x27" ++ n ++ "\x27")) ++ "]"

/-- A structured error dict returned by `RoutingAgent.send_message`. -/
structure SendErrorDict where
  error : String
  message : Option String
  available_agents : Option (List String)
deriving DecidableEq, Repr

/-- Result of the pre-network portion of `RoutingAgent.send_message`. -/
inductive SendMessageResult where
  /-- Returned a structured error dict before any dispatch. -/
  | errDict (e : SendErrorDict)
  /-- Reached the network call with the given payload fields and mutated
  context state. -/
  | dispatch (payloadTaskId payloadContextId : Option String)
      (payloadText payloadMessageId : String) (newState : CtxState)
deriving DecidableEq, Repr

/-- `RoutingAgent.send_message` up to the dispatch point.  `registry` is
the list of keys of `self.remote_agent_connections` (insertion order);
`freshTask`, `freshCtx`, `freshMsg` stand for the `uuid.uuid4()` values
drawn when the respective id is absent from the context. -/
def routing_send_message (registry : List String) (agent_name task : String)
    (s : CtxState) (freshTask freshCtx freshMsg : String) : SendMessageResult :=
  if registry = [] then
    .errDict ⟨"No remote agents are currently available. The sports news and results agents are not running.",
      some "Please ensure the remote agents are started before trying to route requests.", none⟩
  else if agent_name ∉ registry then
    .errDict ⟨"Agent \x27" ++ agent_name ++ "\x27 not found. Available agents: " ++ pyListRepr registry,
      none, some registry⟩
  else
    let s1 : CtxState := { s with active_agent := some agent_name }
    let task_id := s1.task_id.getD freshTask
    let context_id := s1.context_id.getD freshCtx
    let message_id :=
      match s1.metadata_message_id with
      | some m => if m = "" then freshMsg else m
      | none => freshMsg
    -- `if task_id:` / `if context_id:`  — Python truthiness on strings
    .dispatch (if task_id = "" then none else some task_id)
      (if context_id = "" then none else some context_id)
      task message_id s1

/-- Projection: the `taskId`/`contextId` fields of the outgoing payload,
`none` when the call returned an error dict before dispatch. -/
def SendMessageResult.payloadIds : SendMessageResult → Option (Option String × Option String)
  | .dispatch a b _ _ _ => some (a, b)
  | .errDict _ => none

/-- Projection: the context state after the call, `none` when the call
returned an error dict before dispatch. -/
def SendMessageResult.stateAfter : SendMessageResult → Option CtxState
  | .dispatch _ _ _ _ st => some st
  | .errDict _ => none

/-!
## Registry initialization (`RoutingAgent._async_init_components`,
routing_agent.py lines 145-207)

The method iterates the configured addresses with one shared HTTP
client; each iteration resolves a card and, on success, stores
`self.remote_agent_connections[card.name]` and `self.cards[card.name]`.
Both `httpx.ConnectError` and every other `Exception` raised by an
iteration are caught inside the loop body, logged, and the loop
continues, so the method itself never raises.  Card resolution is
abstracted as the oracle `resolve : String → Option AgentCard`
(`none` = that address raised).
-/

structure AgentCard where
  name : String
  description : String
deriving DecidableEq, Repr

/-- Python dict assignment `d[k] = v`: overwrite in place if the key
exists, else append. -/
def dictInsert {α : Type} : List (String × α) → String → α → List (String × α)
  | [], k, v => [(k, v)]
  | (k0, v0) :: rest, k, v =>
      if k0 = k then (k, v) :: rest else (k0, v0) :: dictInsert rest k v

/-- The per-address loop of `_async_init_components`, threading the
`self.cards` dict (the `remote_agent_connections` dict is keyed and
populated identically). -/
def initRegistry (resolve : String → Option AgentCard) :
    List String → List (String × AgentCard) → List (String × AgentCard)
  | [], acc => acc
  | a :: rest, acc =>
      match resolve a with
      | some card => initRegistry resolve rest (dictInsert acc card.name card)
      | none => initRegistry resolve rest acc

/-- `_async_init_components`, starting from the empty dicts of
`__init__`. -/
def async_init_components (resolve : String → Option AgentCard)
    (addresses : List String) : List (String × AgentCard) :=
  initRegistry resolve addresses []

/-!
## Run polling (`RoutingAgent.process_user_message`,
routing_agent.py lines 569-781)

The method returns a fixed string when the Azure agent is missing, then
enters a `try` block: thread resolution, message creation and run
creation (any exception there falls to the outer `except`, which prints
a traceback and falls off the end of the method — an implicit `None`).
The poll loop runs while `run.status` is `queued`/`in_progress`/
`requires_action` and `iteration < 60`; each pass increments `iteration`
and re-fetches the status (a fetch exception keeps the old status and
continues).  After the loop: `iteration >= 60` returns the timeout
literal; a `failed` status enters the error branch, which calls
`self._analyze_rate_limit_error` — a method that does not exist on
`RoutingAgent` — whenever the error looks like a rate limit, raising
`AttributeError` into the outer `except` (implicit `None`); otherwise it
returns `"Error processing request: ..."`.  Finally the newest-first
message scan returns the latest assistant text or the no-response
literal.

External state is the oracle `getStatus i` = outcome of the status fetch
on pass `i` (`none` = the fetch raised).  `Option String` is the Python
return value, `none` being Python `None`.
-/

inductive RunStatus where
  | queued | in_progress | requires_action | completed | failed | cancelled | expired
deriving DecidableEq, Repr

/-- `run.status in ["queued", "in_progress", "requires_action"]`. -/
def pollContinues : RunStatus → Bool
  | .queued => true
  | .in_progress => true
  | .requires_action => true
  | _ => false

/-- The poll loop body; `fuel` is `60 - iteration`, so `fuel = 0` is
exactly the `iteration < max_iterations` exit. -/
def pollLoopAux (getStatus : Nat → Option RunStatus) :
    Nat → RunStatus → Nat → RunStatus × Nat
  | 0, status, iteration => (status, iteration)
  | fuel + 1, status, iteration =>
      if pollContinues status then
        match getStatus (iteration + 1) with
        | some s2 => pollLoopAux getStatus fuel s2 (iteration + 1)
        | none => pollLoopAux getStatus fuel status (iteration + 1)
      else (status, iteration)

/-- The poll loop with `max_iterations = 60`, starting at iteration 0. -/
def pollLoop (getStatus : Nat → Option RunStatus) (status : RunStatus) :
    RunStatus × Nat :=
  pollLoopAux getStatus 60 status 0

/-- `run.last_error`, with `strRep` its `str(...)` and the attribute
values the detail extraction reads (`none` = attribute absent). -/
structure RunError where
  strRep : String
  code : Option String
  message : Option String
  typ : Option String
  param : Option String
deriving DecidableEq, Repr

/-- The `run.status == "failed"` branch (lines 690-744).  The rate-limit
arm calls the nonexistent `self._analyze_rate_limit_error`, so it raises
`AttributeError`, which the outer `except` swallows — modelled as
`none`. -/
def failed_run_branch (lastError : Option RunError) : Option String :=
  match lastError with
  | none => some "Error processing request: Run error: None"
  | some e =>
      let error_info := "Run error: " ++ e.strRep
        ++ (match e.code with | some c => " (Code: " ++ c ++ ")" | none => "")
        ++ (match e.message with | some m => " (Message: " ++ m ++ ")" | none => "")
        ++ (match e.typ with | some t => " (Type: " ++ t ++ ")" | none => "")
        ++ (match e.param with | some p => " (Param: " ++ p ++ ")" | none => "")
      if decide (e.code = some "rate_limit_exceeded")
          || pyIn "rate limit" (pyLower e.strRep)
          || pyIn "quota" (pyLower e.strRep) then
        none
      else
        some ("Error processing request: " ++ error_info)

/-- The external collaborators of one `process_user_message` request. -/
structure RunEnv where
  /-- `self.azure_agent` is set. -/
  agent_initialized : Bool
  /-- thread resolution / message creation / run creation raised. -/
  pre_run_raises : Bool
  /-- status of the freshly created run. -/
  initial_status : RunStatus
  /-- outcome of the status fetch on pass `i` (`none` = fetch raised). -/
  getStatus : Nat → Option RunStatus
  /-- `run.last_error` when the run ends `failed`. -/
  last_error : Option RunError
  /-- the final message listing raised. -/
  list_raises : Bool
  /-- text of the newest assistant message, if any. -/
  assistant_text : Option String

/-- `RoutingAgent.process_user_message`; `none` is Python `None`. -/
def process_user_message (env : RunEnv) : Option String :=
  if !env.agent_initialized then
    some "Azure AI Agent not initialized. Please ensure the agent is properly created."
  else if env.pre_run_raises then
    none
  else
    let r := pollLoop env.getStatus env.initial_status
    if r.2 ≥ 60 then
      some "Request timed out after 60 seconds. Please try again."
    else if r.1 = .failed then
      failed_run_branch env.last_error
    else if env.list_raises then
      none
    else
      match env.assistant_text with
      | some t => some t
      | none => some "No response received from agent."

/-!
## Remote connection transport (`RemoteAgentConnections.send_message` and
`_direct_http_fallback`, remote_agent_connection.py lines 59-134)

`send_message` tries the primary A2A endpoint; on any exception it
builds a client for the stored root fallback URL and retries; if that
also raises it calls `_direct_http_fallback`, which posts hand-built
JSON-RPC to `{base}/rpc/v1/message:send` and then to `{base}/`,
returning the first success and raising when both fail; only when every
attempt has failed is the original primary exception re-raised.  (The
`hasattr(self, 'fallback_url')` guard is always true: `__init__` sets
the attribute unconditionally.)  Each endpoint's outcome is a parameter:
`some r` = the attempt returned response `r`, `none` = it raised. -/

structure TransportEnv (α : Type) where
  /-- the nominal `self.agent_client.send_message` call. -/
  primary : Option α
  /-- the retry against the root `fallback_url`. -/
  fallbackRoot : Option α
  /-- direct HTTP POST to `{base}/rpc/v1/message:send`. -/
  directSend : Option α
  /-- direct HTTP POST to `{base}/`. -/
  directRoot : Option α
deriving DecidableEq, Repr

/-- The endpoints, in the order the code tries them. -/
inductive Attempt where
  | primary | fallbackRoot | directSend | directRoot
deriving DecidableEq, Repr

/-- Result of `RemoteAgentConnections.send_message`: a response, or the
original primary exception re-raised after every attempt failed. -/
inductive ConnOutcome (α : Type) where
  | ok (response : α)
  | raisedPrimaryError
deriving DecidableEq, Repr

/-- `RemoteAgentConnections._direct_http_fallback`: first success among
the two direct endpoints wins; both failing raises. -/
def direct_http_fallback {α : Type} (env : TransportEnv α) :
    List Attempt × Option α :=
  match env.directSend with
  | some r => ([.directSend], some r)
  | none =>
      match env.directRoot with
      | some r => ([.directSend, .directRoot], some r)
      | none => ([.directSend, .directRoot], none)

/-- `RemoteAgentConnections.send_message`, returning the ordered list of
attempted endpoints together with the outcome. -/
def conn_send_message {α : Type} (env : TransportEnv α) :
    List Attempt × ConnOutcome α :=
  match env.primary with
  | some r => ([.primary], .ok r)
  | none =>
      match env.fallbackRoot with
      | some r => ([.primary, .fallbackRoot], .ok r)
      | none =>
          let d := direct_http_fallback env
          match d.2 with
          | some r => (.primary :: .fallbackRoot :: d.1, .ok r)
          | none => (.primary :: .fallbackRoot :: d.1, .raisedPrimaryError)

/-- The first configured endpoint outcome in attempt order. -/
def TransportEnv.firstSuccess {α : Type} (env : TransportEnv α) : Option α :=
  env.primary.orElse fun _ =>
    env.fallbackRoot.orElse fun _ =>
      env.directSend.orElse fun _ => env.directRoot

/-!
## Downstream sports-results agent (`OpenAIWebSearchAgent.stream` and
`_parse_rate_limit_error`, sports_results_agent/agent.py lines 54-237)

The generator yields one standardized chunk per non-empty
`ResponseTextDeltaEvent` delta of the model stream, then a fixed
completion chunk; when not initialized it yields one error chunk and
returns before touching the stream; any exception inside the `try`
(including one interrupting the event loop) is caught and converted
into one final `require_user_input` chunk whose content is
`_parse_rate_limit_error(e)`, after which the generator terminates —
nothing propagates to the consumer.  The model stream is embedded as
the list of classified events consumed before the stream ended or the
exception hit (`RawEvent.otherEvent` covers every event that is not a
raw-response text delta), plus an optional exception.
-/

/-- One chunk yielded by `OpenAIWebSearchAgent.stream` — exactly the
three keys every yielded dict carries. -/
structure AgentChunk where
  is_task_complete : Bool
  require_user_input : Bool
  content : String
deriving DecidableEq, Repr

/-- A classified event of the underlying model stream. -/
inductive RawEvent where
  /-- a `raw_response_event` whose data is a `ResponseTextDeltaEvent`
  with the given `delta`. -/
  | textDelta (delta : String)
  /-- any other stream event (ignored by the classifier). -/
  | otherEvent
deriving DecidableEq, Repr

/-- An exception raised by the underlying run, with its class name and
`str(...)`. -/
structure AgentExn where
  typeName : String
  strRep : String
deriving DecidableEq, Repr

/-- The delta chunks produced by the event loop: one per non-empty text
delta (`if delta_text:`). -/
def deltaChunks (events : List RawEvent) : List AgentChunk :=
  events.filterMap fun e =>
    match e with
    | .textDelta d => if d = "" then none else some ⟨false, false, d⟩
    | .otherEvent => none

/-- The `**Technical details:**` suffix shared by all branch messages of
`_parse_rate_limit_error`. -/
def techDetails (e : AgentExn) : String :=
  "**Technical details:** " ++ e.typeName ++ ": " ++ e.strRep

def msgTPM (e : AgentExn) : String :=
  "⚠️ **Rate Limit Exceeded: Tokens Per Minute (TPM)**\n\nThe request exceeded the allowed tokens per minute limit. This typically means too many tokens are being processed in a short time period.\n\n**Suggestions:**\n• Wait a moment before retrying\n• Reduce the length of your input\n• Break large requests into smaller chunks\n\n" ++ techDetails e

def msgRPM (e : AgentExn) : String :=
  "⚠️ **Rate Limit Exceeded: Requests Per Minute (RPM)**\n\nThe request exceeded the allowed requests per minute limit. This typically means too many API calls are being made in a short time period.\n\n**Suggestions:**\n• Wait a moment before retrying\n• Reduce the frequency of requests\n• Implement request batching if possible\n\n" ++ techDetails e

def msgAzureQuota (e : AgentExn) : String :=
  "⚠️ **Azure OpenAI Quota Exceeded**\n\nYour Azure OpenAI service quota has been exceeded. This could be either tokens per minute (TPM) or requests per minute (RPM).\n\n**Suggestions:**\n• Check your Azure OpenAI resource usage in the Azure portal\n• Wait for the quota to reset\n• Consider upgrading your Azure OpenAI pricing tier\n\n" ++ techDetails e

def msgOpenAIQuota (e : AgentExn) : String :=
  "⚠️ **OpenAI Quota Exceeded**\n\nYour OpenAI API quota has been exceeded. This could be either tokens per minute (TPM) or requests per minute (RPM).\n\n**Suggestions:**\n• Check your OpenAI API usage dashboard\n• Wait for the quota to reset\n• Consider upgrading your OpenAI plan\n\n" ++ techDetails e

def msgGenericRate (e : AgentExn) : String :=
  "⚠️ **Rate Limit Exceeded**\n\nA rate limit has been exceeded, but the specific type could not be determined.\n\n**Suggestions:**\n• Wait a moment before retrying\n• Check your API usage and limits\n• Consider reducing request frequency or size\n\n" ++ techDetails e

def msgAzureUsage (e : AgentExn) : String :=
  "⚠️ **Azure Service Usage Limit Reached**\n\nYour Azure service has reached its usage limit.\n\n**Suggestions:**\n• Check your Azure resource usage in the Azure portal\n• Wait for the limit to reset\n• Consider upgrading your service tier\n\n" ++ techDetails e

def msgOpenAIUsage (e : AgentExn) : String :=
  "⚠️ **OpenAI Usage Limit Reached**\n\nYour OpenAI API has reached its usage limit.\n\n**Suggestions:**\n• Check your OpenAI API usage dashboard\n• Wait for the limit to reset\n• Consider upgrading your OpenAI plan\n\n" ++ techDetails e

/-- `OpenAIWebSearchAgent._parse_rate_limit_error` (agent.py lines
119-237). -/
def parse_rate_limit_error (e : AgentExn) : String :=
  let s := pyLower e.strRep
  if pyIn "rate limit" s || pyIn "quota" s || pyIn "429" s then
    if pyIn "token" s || pyIn "tpm" s || pyIn "tokens per minute" s then
      msgTPM e
    else if pyIn "request" s || pyIn "rpm" s || pyIn "requests per minute" s
        || pyIn "too many requests" s then
      msgRPM e
    else if pyIn "azure" s && (pyIn "openai" s || pyIn "cognitive" s) then
      msgAzureQuota e
    else if pyIn "openai" s then
      msgOpenAIQuota e
    else
      msgGenericRate e
  else if (pyIn "usage" s || pyIn "limit" s) && (pyIn "openai" s || pyIn "azure" s) then
    if pyIn "azure" s then msgAzureUsage e else msgOpenAIUsage e
  else
    "Error processing request: " ++ e.strRep

/-- `OpenAIWebSearchAgent.stream`: the full sequence of chunks the
generator yields.  `events` is the prefix of classified model-stream
events consumed before the stream ended (`exn = none`) or the exception
hit (`exn = some e`). -/
def agent_stream (initialized : Bool) (events : List RawEvent)
    (exn : Option AgentExn) : List AgentChunk :=
  if !initialized then
    [⟨false, true, "Agent not initialized. Please call initialize() first."⟩]
  else
    match exn with
    | none => deltaChunks events ++ [⟨true, false, "Task completed successfully."⟩]
    | some e => deltaChunks events ++ [⟨false, true, parse_rate_limit_error e⟩]

/-!
## Protocol adapter (`OpenAIWebSearchAgentExecutor.execute`,
sports_results_agent/agent_executor.py lines 29-255)

The executor resolves the query, emits the task object (when the
context has none) and a `working` status, then folds over the agent's
chunks: a `require_user_input` chunk emits a final `input_required`
status and stops; an `is_task_complete` chunk finalizes the artifact
(`append=False, lastChunk=True` when it is also the creation,
`append=True, lastChunk=True` otherwise) and emits a final `completed`
status; any other non-empty chunk emits a `working` status plus an
artifact chunk (`append=False` only on the very first); stream
exhaustion without completion emits a final `failed` status.
`task.context_id`/`task.id` decorate every event identically and are
omitted.  The one fresh `new_text_artifact` id is the parameter
`freshId`; appends reuse it via `result_artifact_id`. -/

inductive TaskState where
  | submitted | working | input_required | completed | failed | canceled
deriving DecidableEq, Repr

/-- An event enqueued by the executor. -/
inductive ExecEvent where
  /-- `new_task(...)` enqueued because the context had no current task. -/
  | newTask
  /-- a `TaskStatusUpdateEvent`. -/
  | statusUpdate (state : TaskState) (message : Option String) (final : Bool)
  /-- a `TaskArtifactUpdateEvent`. -/
  | artifactUpdate (artifactId name description text : String)
      (append lastChunk : Bool)
deriving DecidableEq, Repr

/-- The artifact-update subsequence of an event list. -/
structure ArtEvent where
  artifactId : String
  name : String
  description : String
  text : String
  append : Bool
  lastChunk : Bool
deriving DecidableEq, Repr

def artEvents (l : List ExecEvent) : List ArtEvent :=
  l.filterMap fun e =>
    match e with
    | .artifactUpdate id n d t ap lc => some ⟨id, n, d, t, ap, lc⟩
    | _ => none

/-- The `async for partial in self.agent.stream(...)` loop, threading
`result_artifact_id` (`none` until the artifact is created). -/
def execLoop (freshId : String) : List AgentChunk → Option String → List ExecEvent
  | [], _ =>
      [.statusUpdate .failed (some "Stream ended unexpectedly without completion.") true]
  | c :: rest, artId =>
      let text := pyStrip c.content
      if c.require_user_input then
        [.statusUpdate .input_required
          (some (if text = "" then "Additional input is required." else text)) true]
      else if c.is_task_complete then
        let finalText := if text = "" then "Task completed." else text
        (match artId with
          | none =>
              [.artifactUpdate freshId "current_result"
                "Result of request to agent." finalText false true]
          | some id =>
              [.artifactUpdate id "current_result"
                "Result of request to agent." finalText true true])
        ++ [.statusUpdate .completed none true]
      else if text = "" then
        execLoop freshId rest artId
      else
        .statusUpdate .working (some text) false ::
        (match artId with
          | none =>
              .artifactUpdate freshId "current_result"
                "Result of request to agent (streaming)." text false false ::
              execLoop freshId rest (some freshId)
          | some id =>
              .artifactUpdate id "current_result"
                "Result of request to agent (streaming)." text true false ::
              execLoop freshId rest (some id))

/-- `OpenAIWebSearchAgentExecutor.execute`.  `query` is the resolved
user input (`context.get_user_input()`, falling back to the joined
message parts); `hasCurrentTask` is whether `context.current_task` was
set; `chunks` is what `self.agent.stream` yields. -/
def execute (hasCurrentTask : Bool) (query : String)
    (chunks : List AgentChunk) (freshId : String) : List ExecEvent :=
  if query = "" then
    (if hasCurrentTask then [] else [.newTask])
      ++ [.statusUpdate .input_required
          (some "Please provide your query (no text was detected).") true]
  else
    (if hasCurrentTask then [] else [.newTask])
      ++ .statusUpdate .working none false :: execLoop freshId chunks none

/-- Whether the chunk fold reaches an `is_task_complete` chunk (before
any `require_user_input` chunk). -/
def streamCompletes : List AgentChunk → Bool
  | [] => false
  | c :: rest =>
      if c.require_user_input then false
      else if c.is_task_complete then true
      else streamCompletes rest

/-- Every artifact event appends to the artifact `freshId` named
`current_result`. -/
def tailGood (freshId : String) (l : List ArtEvent) : Prop :=
  ∀ a ∈ l, a.append = true ∧ a.artifactId = freshId ∧ a.name = "current_result"

/-- The artifact-event discipline: the first event (if any) creates
artifact `freshId` with `append = false`, every later event appends to
that same artifact. -/
def seqGood (freshId : String) : List ArtEvent → Prop
  | [] => True
  | a :: rest =>
      a.append = false ∧ a.artifactId = freshId ∧ a.name = "current_result"
        ∧ tailGood freshId rest

/-- Number of artifact events flagged `lastChunk = true`. -/
def lastCount (l : List ArtEvent) : Nat :=
  (l.filter fun a => a.lastChunk).length

theorem initialize_session_active (u : String) (s : CtxState) :
    (initialize_session u s).session_active = some true := by
  unfold initialize_session
  by_cases h : s.session_active = some true <;> simp [h]

theorem initialize_session_of_active (u : String) (s : CtxState)
    (h : s.session_active = some true) : initialize_session u s = s := by
  unfold initialize_session
  simp [h]

/-- Claim C9: calling `initialize_session` twice in a row yields the same
state as calling it once — the second call is the identity on the state
produced by the first call, so `session_id` is unchanged by the second
call and `session_active` remains `true`. -/
theorem C9_initialize_session_idempotent (u1 u2 : String) (s : CtxState) :
    initialize_session u2 (initialize_session u1 s) = initialize_session u1 s
      ∧ (initialize_session u1 s).session_active = some true :=
  ⟨initialize_session_of_active u2 _ (initialize_session_active u1 s),
    initialize_session_active u1 s⟩

/-- Claim C3: with an empty registry, `send_message` returns the
structured "no remote agents" error dict; with a non-empty registry and
an unregistered name it returns the "agent not found" error dict whose
`available_agents` entry is the list of registered names and whose
`error` string embeds that list.  Both branches return strictly before
the dispatch point, so no network call is issued; the guards are pure
dict lookups, so neither branch can raise. -/
theorem C3_send_message_error_dicts (registry : List String)
    (agent_name task : String) (s : CtxState) (ft fc fm : String) :
    (registry = [] →
      routing_send_message registry agent_name task s ft fc fm =
        .errDict ⟨"No remote agents are currently available. The sports news and results agents are not running.",
          some "Please ensure the remote agents are started before trying to route requests.", none⟩)
    ∧ (registry ≠ [] → agent_name ∉ registry →
      routing_send_message registry agent_name task s ft fc fm =
        .errDict ⟨"Agent \x27" ++ agent_name ++ "\x27 not found. Available agents: " ++ pyListRepr registry,
          none, some registry⟩) := by
  constructor
  · intro h
    simp [routing_send_message, h]
  · intro h hmem
    simp [routing_send_message, h, hmem]

theorem C3_send_message_error_dicts_witness :
    (routing_send_message [] "SportsResultsAgent" "score?" CtxState.empty "t" "c" "m" =
      .errDict ⟨"No remote agents are currently available. The sports news and results agents are not running.",
        some "Please ensure the remote agents are started before trying to route requests.", none⟩)
    ∧ (routing_send_message ["SportsResultsAgent"] "NewsAgent" "score?" CtxState.empty "t" "c" "m" =
      .errDict ⟨"Agent \x27NewsAgent\x27 not found. Available agents: [\x27SportsResultsAgent\x27]",
        none, some ["SportsResultsAgent"]⟩) :=
  ⟨(C3_send_message_error_dicts [] "SportsResultsAgent" "score?" CtxState.empty "t" "c" "m").1 rfl,
    (C3_send_message_error_dicts ["SportsResultsAgent"] "NewsAgent" "score?" CtxState.empty "t" "c" "m").2
      (by decide) (by decide)⟩

/-- Claim C2 counterexample: two consecutive successful `send_message`
calls on the same context object, starting from the empty context.  The
first call mints fresh ids `task-1`/`ctx-1` and its only state mutation
is `active_agent`; the second call therefore mints fresh ids
`task-2`/`ctx-2` instead of reusing the first call's ids. -/
theorem C2_counterexample :
    routing_send_message ["SportsResultsAgent"] "SportsResultsAgent" "score?"
        CtxState.empty "task-1" "ctx-1" "msg-1"
      = .dispatch (some "task-1") (some "ctx-1") "score?" "msg-1"
          ⟨none, none, some "SportsResultsAgent", none, none, none⟩
    ∧ routing_send_message ["SportsResultsAgent"] "SportsResultsAgent" "score?"
        ⟨none, none, some "SportsResultsAgent", none, none, none⟩ "task-2" "ctx-2" "msg-2"
      = .dispatch (some "task-2") (some "ctx-2") "score?" "msg-2"
          ⟨none, none, some "SportsResultsAgent", none, none, none⟩
    ∧ (some "task-2" : Option String) ≠ some "task-1"
    ∧ (some "ctx-2" : Option String) ≠ some "ctx-1" := by
  refine ⟨?_, ?_, by decide, by decide⟩ <;> rfl

/-- Claim C2 (amended): ids are reused verbatim across consecutive calls
exactly when they were already present in the context state before the
first call.  `send_message` never writes `task_id`/`context_id` back to
the state (its only mutation is `active_agent`), so under presence of
both ids every successful call — in particular two consecutive ones —
carries them verbatim in its payload, and the state keeps them. -/
theorem C2_amended_continuity (registry : List String) (name task1 task2 t c : String)
    (s : CtxState) (ft1 fc1 fm1 ft2 fc2 fm2 : String)
    (hmem : name ∈ registry) (ht : s.task_id = some t) (hc : s.context_id = some c)
    (htne : t ≠ "") (hcne : c ≠ "") :
    (routing_send_message registry name task1 s ft1 fc1 fm1).payloadIds
        = some (some t, some c)
    ∧ (routing_send_message registry name task1 s ft1 fc1 fm1).stateAfter
        = some { s with active_agent := some name }
    ∧ (routing_send_message registry name task2 { s with active_agent := some name }
        ft2 fc2 fm2).payloadIds = some (some t, some c) := by
  have hne : registry ≠ [] := by
    rintro rfl
    exact List.not_mem_nil name hmem
  refine ⟨?_, ?_, ?_⟩ <;>
    simp [routing_send_message, hne, hmem, ht, hc, htne, hcne,
      SendMessageResult.payloadIds, SendMessageResult.stateAfter]

theorem C2_amended_continuity_witness :
    (routing_send_message ["SportsResultsAgent"] "SportsResultsAgent" "q1"
        ⟨none, none, none, some "T0", some "C0", none⟩ "ft1" "fc1" "fm1").payloadIds
      = some (some "T0", some "C0")
    ∧ (routing_send_message ["SportsResultsAgent"] "SportsResultsAgent" "q1"
        ⟨none, none, none, some "T0", some "C0", none⟩ "ft1" "fc1" "fm1").stateAfter
      = some ⟨none, none, some "SportsResultsAgent", some "T0", some "C0", none⟩
    ∧ (routing_send_message ["SportsResultsAgent"] "SportsResultsAgent" "q2"
        ⟨none, none, some "SportsResultsAgent", some "T0", some "C0", none⟩
        "ft2" "fc2" "fm2").payloadIds = some (some "T0", some "C0") :=
  C2_amended_continuity ["SportsResultsAgent"] "SportsResultsAgent" "q1" "q2" "T0" "C0"
    ⟨none, none, none, some "T0", some "C0", none⟩ "ft1" "fc1" "fm1" "ft2" "fc2" "fm2"
    (by decide) rfl rfl (by decide) (by decide)

theorem initRegistry_filter (resolve : String → Option AgentCard)
    (addresses : List String) (acc : List (String × AgentCard)) :
    initRegistry resolve addresses acc
      = initRegistry resolve (addresses.filter fun a => (resolve a).isSome) acc := by
  induction addresses generalizing acc with
  | nil => rfl
  | cons a rest ih =>
      cases h : resolve a with
      | none => simp [initRegistry, h, List.filter_cons, ih]
      | some card => simp [initRegistry, h, List.filter_cons, ih]

theorem keys_dictInsert {α : Type} (acc : List (String × α)) (k : String) (v : α)
    (j : String) :
    j ∈ (dictInsert acc k v).map Prod.fst ↔ j = k ∨ j ∈ acc.map Prod.fst := by
  induction acc with
  | nil => simp [dictInsert]
  | cons p rest ih =>
      by_cases h : p.1 = k
      · simp [dictInsert, h]
      · simp [dictInsert, h, ih]
        tauto

theorem keys_initRegistry (resolve : String → Option AgentCard)
    (addresses : List String) (acc : List (String × AgentCard)) (j : String) :
    j ∈ (initRegistry resolve addresses acc).map Prod.fst
      ↔ (∃ a ∈ addresses, ∃ c, resolve a = some c ∧ c.name = j)
        ∨ j ∈ acc.map Prod.fst := by
  induction addresses generalizing acc with
  | nil => simp [initRegistry]
  | cons a rest ih =>
      cases h : resolve a with
      | none =>
          simp only [initRegistry, h, ih, List.mem_cons]
          constructor
          · rintro (⟨x, hx, c, hc, hn⟩ | hacc)
            · exact Or.inl ⟨x, Or.inr hx, c, hc, hn⟩
            · exact Or.inr hacc
          · rintro (⟨x, hx | hx, c, hc, hn⟩ | hacc)
            · rw [hx] at hc
              rw [h] at hc
              exact absurd hc (by simp)
            · exact Or.inl ⟨x, hx, c, hc, hn⟩
            · exact Or.inr hacc
      | some card =>
          simp only [initRegistry, h, ih, keys_dictInsert, List.mem_cons]
          constructor
          · rintro (⟨x, hx, c, hc, hn⟩ | hj | hacc)
            · exact Or.inl ⟨x, Or.inr hx, c, hc, hn⟩
            · exact Or.inl ⟨a, Or.inl rfl, card, h, hj.symm⟩
            · exact Or.inr hacc
          · rintro (⟨x, hx | hx, c, hc, hn⟩ | hacc)
            · rw [hx] at hc
              rw [h] at hc
              rw [Option.some_inj] at hc
              exact Or.inr (Or.inl (hn ▸ hc ▸ rfl))
            · exact Or.inl ⟨x, hx, c, hc, hn⟩
            · exact Or.inr (Or.inr hacc)

/-- Claim C4: registry initialization with failing addresses.  The
registry built from `addresses` equals the registry built from only the
successfully resolving addresses (one failure never aborts the rest),
its key set is exactly the names of the successfully resolved cards,
and when every address fails the registry is empty.  The embedding is a
total function: the per-address `except` blocks mean initialization
never raises. -/
theorem C4_partial_failure_isolation (resolve : String → Option AgentCard)
    (addresses : List String) :
    (async_init_components resolve addresses
      = async_init_components resolve (addresses.filter fun a => (resolve a).isSome))
    ∧ (∀ j, j ∈ (async_init_components resolve addresses).map Prod.fst
        ↔ ∃ a ∈ addresses, ∃ c, resolve a = some c ∧ c.name = j)
    ∧ ((∀ a ∈ addresses, resolve a = none) → async_init_components resolve addresses = []) := by
  refine ⟨initRegistry_filter resolve addresses [], ?_, ?_⟩
  · intro j
    have h := keys_initRegistry resolve addresses [] j
    simpa using h
  · intro hall
    have hfil : addresses.filter (fun a => (resolve a).isSome) = [] := by
      rw [List.filter_eq_nil_iff]
      intro a ha
      simp [hall a ha]
    rw [async_init_components, initRegistry_filter resolve addresses [], hfil]
    rfl

theorem C4_partial_failure_isolation_witness :
    (async_init_components
        (fun a => if a = "http://ok:10001" then some ⟨"SportsResultsAgent", "results"⟩ else none)
        ["http://bad:9999", "http://ok:10001"]
      = async_init_components
          (fun a => if a = "http://ok:10001" then some ⟨"SportsResultsAgent", "results"⟩ else none)
          (["http://bad:9999", "http://ok:10001"].filter fun a =>
            ((fun a => if a = "http://ok:10001" then some (⟨"SportsResultsAgent", "results"⟩ : AgentCard) else none) a).isSome))
    ∧ ("SportsResultsAgent" ∈ (async_init_components
        (fun a => if a = "http://ok:10001" then some ⟨"SportsResultsAgent", "results"⟩ else none)
        ["http://bad:9999", "http://ok:10001"]).map Prod.fst
        ↔ ∃ a ∈ ["http://bad:9999", "http://ok:10001"], ∃ c,
            (if a = "http://ok:10001" then some (⟨"SportsResultsAgent", "results"⟩ : AgentCard) else none) = some c
              ∧ c.name = "SportsResultsAgent")
    ∧ ((∀ a ∈ ["http://bad:9999", "http://ok:10001"],
          (fun _ => (none : Option AgentCard)) a = none)
        → async_init_components (fun _ => none) ["http://bad:9999", "http://ok:10001"] = []) := by
  refine ⟨(C4_partial_failure_isolation _ _).1, (C4_partial_failure_isolation _ _).2.1 _, ?_⟩
  intro h
  exact (C4_partial_failure_isolation (fun _ => none) _).2.2 h

theorem pollLoopAux_exhaust (getStatus : Nat → Option RunStatus)
    (fuel : Nat) (status : RunStatus) (iteration : Nat)
    (h0 : pollContinues status = true)
    (hst : ∀ i, iteration < i → i ≤ iteration + fuel →
      ∀ s, getStatus i = some s → pollContinues s = true) :
    (pollLoopAux getStatus fuel status iteration).2 = iteration + fuel := by
  induction fuel generalizing status iteration with
  | zero => simp [pollLoopAux]
  | succ n ih =>
      rw [pollLoopAux, if_pos h0]
      cases hg : getStatus (iteration + 1) with
      | some s2 =>
          have hs2 : pollContinues s2 = true :=
            hst (iteration + 1) (Nat.lt_succ_self _) (by omega) s2 hg
          rw [ih s2 (iteration + 1) hs2 ?_]
          · omega
          · intro i hi1 hi2 s hs
            exact hst i (by omega) (by omega) s hs
      | none =>
          rw [ih status (iteration + 1) h0 ?_]
          · omega
          · intro i hi1 hi2 s hs
            exact hst i (by omega) (by omega) s hs

/-- Claim C6: when the run never reaches a terminal status in 60 polling
iterations, `process_user_message` returns exactly the literal
`"Request timed out after 60 seconds. Please try again."`.  The branch
is a plain `return` of the literal, so nothing is raised. -/
theorem C6_poll_timeout (env : RunEnv)
    (hinit : env.agent_initialized = true) (hpre : env.pre_run_raises = false)
    (h0 : pollContinues env.initial_status = true)
    (hst : ∀ i, 1 ≤ i → i ≤ 60 → ∀ s, env.getStatus i = some s → pollContinues s = true) :
    process_user_message env =
      some "Request timed out after 60 seconds. Please try again." := by
  have hp : (pollLoop env.getStatus env.initial_status).2 = 60 := by
    have := pollLoopAux_exhaust env.getStatus 60 env.initial_status 0 h0 ?_
    · simpa [pollLoop] using this
    · intro i hi1 hi2 s hs
      exact hst i hi1 (by omega) s hs
  simp [process_user_message, hinit, hpre, hp]

theorem C6_poll_timeout_witness :
    process_user_message ⟨true, false, .queued, fun _ => some .in_progress, none, false, none⟩
      = some "Request timed out after 60 seconds. Please try again." :=
  C6_poll_timeout ⟨true, false, .queued, fun _ => some .in_progress, none, false, none⟩
    rfl rfl rfl (by
      intro i _ _ s hs
      simp only [Option.some.injEq] at hs
      rw [← hs]
      rfl)

/-- Claim C5 (code bug): the code path for a failed run whose error
matches the rate-limit patterns calls the nonexistent
`RoutingAgent._analyze_rate_limit_error`; the resulting
`AttributeError` is swallowed by the outer `except`, which ends the
method without a `return` — Python `None`, contradicting both the
claimed "never silently return `None`" and the method's own `-> str`
annotation.  The same implicit `None` results from any exception
raised before the run (second conjunct). -/
theorem C5_failed_run_returns_none :
    process_user_message ⟨true, false, .failed, fun _ => some .failed,
      some ⟨"Rate limit is exceeded. Try again in 5 seconds.",
        some "rate_limit_exceeded", some "Rate limit is exceeded.", none, none⟩,
      false, none⟩ = none
    ∧ process_user_message ⟨true, true, .queued, fun _ => some .completed,
        none, false, some "hello"⟩ = none := by
  constructor <;> rfl

/-- Claim C8 counterexample: a transport failure of the primary endpoint
followed by a success of the root fallback endpoint.  The connection
layer retries the alternate endpoint on its own and returns its
response, so the primary failure is neither propagated nor left to the
caller — contradicting "no retry against alternate endpoints". -/
theorem C8_counterexample :
    conn_send_message (⟨none, some 7, none, none⟩ : TransportEnv Nat)
      = ([.primary, .fallbackRoot], .ok 7)
    ∧ ([Attempt.primary, Attempt.fallbackRoot] ≠ [Attempt.primary])
    ∧ (ConnOutcome.ok 7 ≠ (ConnOutcome.raisedPrimaryError : ConnOutcome Nat)) := by
  refine ⟨rfl, by decide, by decide⟩

/-- Claim C8 (amended): on a primary transport failure
`RemoteAgentConnections.send_message` automatically retries alternate
endpoints in a fixed layered order (root fallback, then direct HTTP to
the `rpc/v1/message:send` shape, then to the root shape); the first
success wins and is returned, and the original primary exception is
re-raised to the caller exactly when every attempt fails. -/
theorem C8_amended_layered_fallback {α : Type} (env : TransportEnv α) :
    ((conn_send_message env).2 = .raisedPrimaryError ↔ env.firstSuccess = none)
    ∧ (∀ r, (conn_send_message env).2 = .ok r ↔ env.firstSuccess = some r)
    ∧ (env.primary ≠ none → (conn_send_message env).1 = [.primary]) := by
  obtain ⟨p, f, d1, d2⟩ := env
  cases p <;> cases f <;> cases d1 <;> cases d2 <;>
    simp [conn_send_message, direct_http_fallback, TransportEnv.firstSuccess,
      Option.orElse]

theorem C8_amended_layered_fallback_witness :
    ((conn_send_message (⟨none, none, none, none⟩ : TransportEnv Nat)).2
        = .raisedPrimaryError
      ↔ (⟨none, none, none, none⟩ : TransportEnv Nat).firstSuccess = none)
    ∧ (∀ r, (conn_send_message (⟨none, none, none, none⟩ : TransportEnv Nat)).2 = .ok r
        ↔ (⟨none, none, none, none⟩ : TransportEnv Nat).firstSuccess = some r)
    ∧ ((⟨none, none, none, none⟩ : TransportEnv Nat).primary ≠ none →
        (conn_send_message (⟨none, none, none, none⟩ : TransportEnv Nat)).1 = [.primary]) :=
  C8_amended_layered_fallback (⟨none, none, none, none⟩ : TransportEnv Nat)

theorem mem_deltaChunks (c : AgentChunk) (events : List RawEvent)
    (h : c ∈ deltaChunks events) :
    c.is_task_complete = false ∧ c.require_user_input = false ∧ c.content ≠ "" := by
  simp only [deltaChunks, List.mem_filterMap] at h
  obtain ⟨a, _, hf⟩ := h
  cases a with
  | otherEvent => simp at hf
  | textDelta d =>
      by_cases hd : d = ""
      · simp [hd] at hf
      · simp only [if_neg hd, Option.some.injEq] at hf
        rw [← hf]
        exact ⟨rfl, rfl, hd⟩

theorem parse_rate_limit_error_rate_branch (e : AgentExn)
    (h : (pyIn "rate limit" (pyLower e.strRep) || pyIn "quota" (pyLower e.strRep)
      || pyIn "429" (pyLower e.strRep)) = true) :
    parse_rate_limit_error e = msgTPM e ∨ parse_rate_limit_error e = msgRPM e
      ∨ parse_rate_limit_error e = msgAzureQuota e
      ∨ parse_rate_limit_error e = msgOpenAIQuota e
      ∨ parse_rate_limit_error e = msgGenericRate e := by
  simp only [parse_rate_limit_error]
  rw [if_pos h]
  split_ifs <;> tauto

/-- Claim C10: `OpenAIWebSearchAgent.stream` never propagates an
exception: every yielded value is (by the chunk type) a record of
exactly `is_task_complete`/`require_user_input`/`content`; on an
internal exception the yielded sequence is non-empty, all chunks before
the last are plain delta chunks (both flags false, non-empty content),
the final chunk has `require_user_input = true` and carries
`_parse_rate_limit_error(e)` (when initialized), and whenever the error
matches the rate/quota/429 patterns that content is one of the five
rate-limit-specific messages.  The embedding is a total function
because every code path of the generator body is inside the
`try`/`except` whose handler itself only yields. -/
theorem C10_stream_never_raises (initialized : Bool) (events : List RawEvent)
    (e : AgentExn) :
    agent_stream initialized events (some e) ≠ []
    ∧ (∀ c ∈ (agent_stream initialized events (some e)).dropLast,
        c.is_task_complete = false ∧ c.require_user_input = false ∧ c.content ≠ "")
    ∧ (agent_stream initialized events (some e)).getLast?.map
        (fun c => c.require_user_input) = some true
    ∧ (initialized = true →
        (agent_stream initialized events (some e)).getLast?.map (fun c => c.content)
          = some (parse_rate_limit_error e))
    ∧ ((pyIn "rate limit" (pyLower e.strRep) || pyIn "quota" (pyLower e.strRep)
          || pyIn "429" (pyLower e.strRep)) = true →
        parse_rate_limit_error e = msgTPM e ∨ parse_rate_limit_error e = msgRPM e
          ∨ parse_rate_limit_error e = msgAzureQuota e
          ∨ parse_rate_limit_error e = msgOpenAIQuota e
          ∨ parse_rate_limit_error e = msgGenericRate e) := by
  refine ⟨?_, ?_, ?_, ?_, parse_rate_limit_error_rate_branch e⟩
  · cases initialized <;> simp [agent_stream]
  · cases initialized with
    | false =>
        intro c hc
        simp [agent_stream] at hc
    | true =>
        intro c hc
        rw [agent_stream] at hc
        simp only [Bool.not_true, Bool.false_eq_true, if_false] at hc
        rw [List.dropLast_concat] at hc
        exact mem_deltaChunks c events hc
  · cases initialized with
    | false => simp [agent_stream]
    | true =>
        rw [agent_stream]
        simp only [Bool.not_true, Bool.false_eq_true, if_false]
        rw [List.getLast?_concat]
        rfl
  · cases initialized with
    | false => simp
    | true =>
        intro _
        rw [agent_stream]
        simp only [Bool.not_true, Bool.false_eq_true, if_false]
        rw [List.getLast?_concat]
        rfl

theorem C10_stream_never_raises_witness :
    agent_stream true [RawEvent.textDelta "hi"]
        (some ⟨"RateLimitError", "Rate limit exceeded: 429"⟩) ≠ []
    ∧ (agent_stream true [RawEvent.textDelta "hi"]
        (some ⟨"RateLimitError", "Rate limit exceeded: 429"⟩)).getLast?.map
          (fun c => c.require_user_input) = some true
    ∧ (agent_stream true [RawEvent.textDelta "hi"]
        (some ⟨"RateLimitError", "Rate limit exceeded: 429"⟩)).getLast?.map
          (fun c => c.content)
        = some (parse_rate_limit_error ⟨"RateLimitError", "Rate limit exceeded: 429"⟩)
    ∧ (parse_rate_limit_error ⟨"RateLimitError", "Rate limit exceeded: 429"⟩
          = msgTPM ⟨"RateLimitError", "Rate limit exceeded: 429"⟩
        ∨ parse_rate_limit_error ⟨"RateLimitError", "Rate limit exceeded: 429"⟩
          = msgRPM ⟨"RateLimitError", "Rate limit exceeded: 429"⟩
        ∨ parse_rate_limit_error ⟨"RateLimitError", "Rate limit exceeded: 429"⟩
          = msgAzureQuota ⟨"RateLimitError", "Rate limit exceeded: 429"⟩
        ∨ parse_rate_limit_error ⟨"RateLimitError", "Rate limit exceeded: 429"⟩
          = msgOpenAIQuota ⟨"RateLimitError", "Rate limit exceeded: 429"⟩
        ∨ parse_rate_limit_error ⟨"RateLimitError", "Rate limit exceeded: 429"⟩
          = msgGenericRate ⟨"RateLimitError", "Rate limit exceeded: 429"⟩) :=
  have h := C10_stream_never_raises true [RawEvent.textDelta "hi"]
    ⟨"RateLimitError", "Rate limit exceeded: 429"⟩
  ⟨h.1, h.2.2.1, h.2.2.2.1 rfl, h.2.2.2.2 (by decide)⟩

theorem artEvents_execLoop_some (freshId id : String) (chunks : List AgentChunk) :
    tailGood id (artEvents (execLoop freshId chunks (some id))) := by
  induction chunks with
  | nil =>
      intro a ha
      simp [execLoop, artEvents] at ha
  | cons c rest ih =>
      intro a ha
      by_cases hr : c.require_user_input = true
      · simp [execLoop, hr, artEvents] at ha
      · by_cases hd : c.is_task_complete = true
        · simp only [execLoop, hr, hd, if_false, if_true, artEvents,
            List.filterMap_append, List.filterMap_cons, List.filterMap_nil,
            Bool.false_eq_true] at ha
          simp at ha
          rw [ha]
          exact ⟨rfl, rfl, rfl⟩
        · by_cases ht : pyStrip c.content = ""
          · simp only [execLoop, hr, hd, ht, if_true, if_false,
              Bool.false_eq_true] at ha
            exact ih a ha
          · simp only [execLoop, hr, hd, ht, if_false, Bool.false_eq_true,
              artEvents, List.filterMap_cons] at ha
            simp at ha
            rcases ha with ha | ha
            · rw [ha]
              exact ⟨rfl, rfl, rfl⟩
            · exact ih a (by simpa [artEvents] using ha)

theorem artEvents_execLoop_none (freshId : String) (chunks : List AgentChunk) :
    seqGood freshId (artEvents (execLoop freshId chunks none)) := by
  induction chunks with
  | nil => simp [execLoop, artEvents, seqGood]
  | cons c rest ih =>
      by_cases hr : c.require_user_input = true
      · simp [execLoop, hr, artEvents, seqGood]
      · by_cases hd : c.is_task_complete = true
        · simp only [execLoop, hr, hd, if_false, if_true, Bool.false_eq_true]
          simp [artEvents, seqGood, tailGood]
        · by_cases ht : pyStrip c.content = ""
          · simpa [execLoop, hr, hd, ht] using ih
          · simp only [execLoop, hr, hd, ht, if_false, Bool.false_eq_true,
              artEvents, List.filterMap_cons]
            simp only [seqGood]
            exact ⟨trivial, trivial, trivial, artEvents_execLoop_some freshId freshId rest⟩

theorem lastCount_execLoop (freshId : String) (chunks : List AgentChunk)
    (artId : Option String) :
    lastCount (artEvents (execLoop freshId chunks artId))
      = if streamCompletes chunks then 1 else 0 := by
  induction chunks generalizing artId with
  | nil => simp [execLoop, artEvents, lastCount, streamCompletes]
  | cons c rest ih =>
      by_cases hr : c.require_user_input = true
      · simp [execLoop, hr, artEvents, lastCount, streamCompletes]
      · by_cases hd : c.is_task_complete = true
        · cases artId <;>
            simp [execLoop, hr, hd, artEvents, lastCount, streamCompletes]
        · by_cases ht : pyStrip c.content = ""
          · simpa [execLoop, hr, hd, ht, streamCompletes] using ih artId
          · cases artId <;>
              simpa [execLoop, hr, hd, ht, artEvents, lastCount, streamCompletes]
                using ih _

theorem artEvents_execute (hasTask : Bool) (query : String)
    (chunks : List AgentChunk) (freshId : String) (hq : query ≠ "") :
    artEvents (execute hasTask query chunks freshId)
      = artEvents (execLoop freshId chunks none) := by
  cases hasTask <;> simp [execute, hq, artEvents]

/-- Claim C1 (amended): in every execution of the protocol adapter's
stream loop, all artifact chunks target the single artifact `freshId`
named `current_result`; the first emitted chunk creates it with
`append = false` and every later chunk (the completion chunk included)
uses `append = true`; at most one emitted chunk carries
`lastChunk = true`, and exactly one does precisely when the stream
yields a completion chunk before ending and before any
`require_user_input` chunk. -/
theorem C1_amended_artifact_discipline (hasTask : Bool) (query : String)
    (chunks : List AgentChunk) (freshId : String) (hq : query ≠ "") :
    seqGood freshId (artEvents (execute hasTask query chunks freshId))
    ∧ lastCount (artEvents (execute hasTask query chunks freshId))
        = (if streamCompletes chunks then 1 else 0)
    ∧ lastCount (artEvents (execute hasTask query chunks freshId)) ≤ 1 := by
  rw [artEvents_execute hasTask query chunks freshId hq]
  refine ⟨artEvents_execLoop_none freshId chunks,
    lastCount_execLoop freshId chunks none, ?_⟩
  rw [lastCount_execLoop]
  split <;> omega

theorem C1_amended_artifact_discipline_witness :
    seqGood "art-1" (artEvents (execute true "score?"
        [⟨false, false, "Hello"⟩, ⟨true, false, ""⟩] "art-1"))
    ∧ lastCount (artEvents (execute true "score?"
        [⟨false, false, "Hello"⟩, ⟨true, false, ""⟩] "art-1"))
        = (if streamCompletes [⟨false, false, "Hello"⟩, ⟨true, false, ""⟩] then 1 else 0)
    ∧ lastCount (artEvents (execute true "score?"
        [⟨false, false, "Hello"⟩, ⟨true, false, ""⟩] "art-1")) ≤ 1 :=
  C1_amended_artifact_discipline true "score?"
    [⟨false, false, "Hello"⟩, ⟨true, false, ""⟩] "art-1" (by decide)

/-- Claim C1 counterexample: a task whose stream yields one delta chunk
and then a `require_user_input` error chunk — exactly what the
downstream agent produces when the model raises mid-stream.  The
adapter creates the artifact for the delta and then stops on the error
chunk: one chunk was emitted for the artifact, and no emitted chunk has
`lastChunk = true`, refuting "exactly one emitted chunk has
`lastChunk=true`". -/
theorem C1_counterexample :
    agent_stream true [.textDelta "x"] (some ⟨"TypeError", "boom"⟩)
      = [⟨false, false, "x"⟩, ⟨false, true, "Error processing request: boom"⟩]
    ∧ artEvents (execute true "score?"
        (agent_stream true [.textDelta "x"] (some ⟨"TypeError", "boom"⟩)) "art-1")
      = [⟨"art-1", "current_result", "Result of request to agent (streaming).",
          "x", false, false⟩]
    ∧ lastCount (artEvents (execute true "score?"
        (agent_stream true [.textDelta "x"] (some ⟨"TypeError", "boom"⟩)) "art-1"))
      = 0 := by
  exact ⟨rfl, rfl, rfl⟩

/-- Claim C7 counterexample: a streamed response with zero textual
deltas.  The agent's stream yields only its fixed completion chunk,
whose content is the literal `"Task completed successfully."` — the
literal `"Done."` appears nowhere in the repository — so the adapter
emits a terminal `completed` status and exactly one artifact whose text
is `"Task completed successfully."`, not `"Done."`. -/
theorem C7_counterexample :
    execute false "Who won the Masters?" (agent_stream true [.otherEvent] none) "art-1"
      = [.newTask, .statusUpdate .working none false,
         .artifactUpdate "art-1" "current_result" "Result of request to agent."
           "Task completed successfully." false true,
         .statusUpdate .completed none true]
    ∧ "Task completed successfully." ≠ "Done." :=
  ⟨rfl, by decide⟩

/-- Claim C7 (amended): for every downstream stream that produces zero
textual deltas (and no exception), the adapter emits the task object
(when the context lacks one), a `working` status, exactly one artifact
chunk — created atomically with `append = false`, `lastChunk = true`
and text `"Task completed successfully."`, the agent's fixed completion
literal — and a terminal `completed` status. -/
theorem C7_amended_zero_deltas (hasTask : Bool) (query : String)
    (events : List RawEvent) (freshId : String)
    (hq : query ≠ "") (hdelta : deltaChunks events = []) :
    execute hasTask query (agent_stream true events none) freshId
      = (if hasTask then [] else [.newTask])
        ++ [.statusUpdate .working none false,
            .artifactUpdate freshId "current_result" "Result of request to agent."
              "Task completed successfully." false true,
            .statusUpdate .completed none true] := by
  have hs : agent_stream true events none
      = [⟨true, false, "Task completed successfully."⟩] := by
    simp [agent_stream, hdelta]
  rw [hs]
  cases hasTask <;>
    · unfold execute
      rw [if_neg hq]
      rfl

theorem C7_amended_zero_deltas_witness :
    execute false "Who won the US Open?"
        (agent_stream true [.otherEvent, .textDelta ""] none) "art-1"
      = (if false then [] else [.newTask])
        ++ [.statusUpdate .working none false,
            .artifactUpdate "art-1" "current_result" "Result of request to agent."
              "Task completed successfully." false true,
            .statusUpdate .completed none true] :=
  C7_amended_zero_deltas false "Who won the US Open?" [.otherEvent, .textDelta ""]
    "art-1" (by decide) rfl
